import Mathlib

/-!
# Verification of the crabpp ownership primitives

Shallow embedding of the two ownership types of the crabpp repository:

* `Rc` (src/include/rc.hpp) — the shared-ownership reference-counted handle:
  a payload pointer `data` plus a pointer `ref_count` to a shared `usize`
  counter on the heap.
* `Box` (src/include/box.hpp) — the exclusive-ownership handle, specialized
  for scalar (`Box<T>`) and array (`Box<T[]>`) shapes.

Pointers are modelled as `Option Addr` with `none` standing for `nullptr`.
The heap is modelled as explicit state: partial maps from addresses to
values, threaded through every operation exactly as the C++ code reads and
writes memory.  `usize` arithmetic is carried out modulo `2 ^ 64`.
`debug_assert` conditions are modelled as separate `Bool`-valued predicates
(`…Assert`); a `false` value of such a predicate is the fatal-assertion
(precondition-violation) path of a debug build.  Deallocation is modelled
by removing the address from the heap map and bumping a free tally;
deleting an address that is not live increments a `doubleFrees` tally
(deleting `nullptr` is a no-op, as in C++).
-/

namespace Crabpp

abbrev Addr := Nat

/-- A raw pointer: `none` is `nullptr`. -/
abbrev Ptr := Option Addr

/-- Modulus of `usize` arithmetic. -/
def USIZE : Nat := 2 ^ 64

/-- `*p += 1` on a `usize`. -/
def usizeAdd1 (v : Nat) : Nat := (v + 1) % USIZE

/-- `*p -= 1` on a `usize` (wraps at zero, like unsigned arithmetic). -/
def usizeSub1 (v : Nat) : Nat := (v + (USIZE - 1)) % USIZE

/-- Pointwise update of a heap map at one address. -/
def setAt {α : Type} (f : Addr → α) (a : Addr) (v : α) : Addr → α :=
  fun x => if x = a then v else f x

/-! ## Shared owner: `Rc<T>` (src/include/rc.hpp)

Payload values are modelled as `Nat`.  The heap for `Rc` has two regions:
`payloads` (the `T` allocations) and `counters` (the `usize` allocations);
`next` is the allocator cursor handing out fresh addresses and
`payloadFrees` tallies how many times a payload allocation was `delete`d. -/

structure RcHeap where
  payloads : Addr → Option Nat
  counters : Addr → Option Nat
  next : Addr
  payloadFrees : Nat

/-- The two fields of `Rc<T>`: `T *data` and `usize *ref_count`. -/
structure Rc where
  data : Ptr
  ref_count : Ptr
deriving DecidableEq, Repr

/-- The `debug_assert`s of the private constructor `Rc(T*, usize*)`
(rc.hpp:17-18): both pointers must be non-null. -/
def rcCtorAssert (d c : Ptr) : Bool := d.isSome && c.isSome

/-- The private constructor `Rc(T *data, usize *ref_count)` (rc.hpp:15-21):
stores the two pointers and performs `*ref_count += 1`. -/
def rcCtor (h : RcHeap) (d c : Ptr) : RcHeap × Rc :=
  match c with
  | some a =>
      ({ h with counters := setAt h.counters a ((h.counters a).map usizeAdd1) },
       ⟨d, c⟩)
  | none => (h, ⟨d, c⟩)

/-- `explicit Rc(T &&value) : Rc(new T{value}, new usize{0})` (rc.hpp:38):
allocates the payload and a zero-initialized counter, then delegates to the
private constructor (which increments the counter to 1). -/
def Rc.fromValue (h : RcHeap) (v : Nat) : RcHeap × Rc :=
  let d := h.next
  let c := h.next + 1
  let h1 : RcHeap :=
    { h with
      payloads := setAt h.payloads d (some v)
      counters := setAt h.counters c (some 0)
      next := h.next + 2 }
  rcCtor h1 (some d) (some c)

/-- `Rc from_owned_unchecked(const T *box)` (rc.hpp:41): wraps a raw payload
pointer with a fresh zero-initialized counter, delegating to the private
constructor. -/
def Rc.fromOwnedUnchecked (h : RcHeap) (box : Ptr) : RcHeap × Rc :=
  let c := h.next
  let h1 : RcHeap :=
    { h with counters := setAt h.counters c (some 0), next := h.next + 1 }
  rcCtor h1 box (some c)

/-- Copy constructor `Rc(const Rc &from) : Rc(from.data, from.ref_count)`
(rc.hpp:43-44): aliases the pair and (via the private ctor) increments. -/
def Rc.copyCtor (h : RcHeap) (src : Rc) : RcHeap × Rc :=
  rcCtor h src.data src.ref_count

/-- Move constructor `Rc(Rc &&from)` (rc.hpp:46-53): exchanges both source
pointers to `nullptr` and delegates the taken pair to the private
constructor — which therefore performs its `*ref_count += 1`.
Returns `(heap, new instance, moved-from source)`. -/
def Rc.moveCtor (h : RcHeap) (src : Rc) : RcHeap × Rc × Rc :=
  let (h1, r) := rcCtor h src.data src.ref_count
  (h1, r, ⟨none, none⟩)

/-- `void release()` (rc.hpp:23-35): if `ref_count` is non-null, decrement
the shared counter; when it reaches zero, `delete data; delete ref_count`.
A null `ref_count` (paired with null `data`) does nothing.  Reading a
counter that is no longer allocated is undefined behavior in C++; the model
leaves the heap unchanged on that (never reached in verified scenarios)
branch. -/
def Rc.release (h : RcHeap) (r : Rc) : RcHeap :=
  match r.ref_count with
  | some c =>
      match h.counters c with
      | some v =>
          let v2 := usizeSub1 v
          if v2 = 0 then
            { h with
              payloads :=
                match r.data with
                | some d => setAt h.payloads d none
                | none => h.payloads
              counters := setAt h.counters c none
              payloadFrees := h.payloadFrees + (if r.data.isSome then 1 else 0) }
          else
            { h with counters := setAt h.counters c (some v2) }
      | none => h
  | none => h

/-- The `debug_assert`s inside `release` (rc.hpp:25,34): when `ref_count`
is non-null `data` must be too, and when `ref_count` is null `data` must be
null. -/
def rcReleaseAssert (r : Rc) : Bool := r.data.isSome == r.ref_count.isSome

/-- Copy assignment `Rc &operator=(const Rc &from)` (rc.hpp:55-62):
`release()` the destination's current reference, then copy the source's two
pointers.  NOTE: the code performs no counter increment here.
Returns `(heap, new value of the destination)`. -/
def Rc.copyAssign (h : RcHeap) (dst src : Rc) : RcHeap × Rc :=
  let h1 := Rc.release h dst
  (h1, ⟨src.data, src.ref_count⟩)

/-- Move assignment `Rc &operator=(Rc &&from)` (rc.hpp:64-71): `release()`
the destination, then exchange both source pointers to null and take them.
Returns `(heap, new destination, moved-from source)`. -/
def Rc.moveAssign (h : RcHeap) (dst src : Rc) : RcHeap × Rc × Rc :=
  let h1 := Rc.release h dst
  (h1, ⟨src.data, src.ref_count⟩, ⟨none, none⟩)

/-- Destructor `~Rc()` (rc.hpp:73-75): just `release()`. -/
def Rc.dtor (h : RcHeap) (r : Rc) : RcHeap := Rc.release h r

/-- The `debug_assert`s of `raw_ptr()` (rc.hpp:86-90), guarding every
dereference and view conversion: both pointers non-null. -/
def Rc.derefAssert (r : Rc) : Bool := r.data.isSome && r.ref_count.isSome

/-- Dereference `operator const T&` / `as_ref` (rc.hpp:77-90): read the
payload through `data`. -/
def Rc.deref (h : RcHeap) (r : Rc) : Option Nat := r.data.bind h.payloads

/-- Paired validity of the two `Rc` fields: `data` and `ref_count` are
either both valid or both cleared. -/
def Rc.paired (r : Rc) : Bool := r.data.isSome == r.ref_count.isSome

/-- Destroying each handle in a list in order (`~Rc()` for each). -/
def destroyAll (h : RcHeap) (rs : List Rc) : RcHeap :=
  rs.foldl Rc.dtor h

/-! ## Exclusive owner: `Box<T>` and `Box<T[]>` (src/include/box.hpp)

Scalar payloads are `Nat`; array payloads are `List Nat`.  The two shapes
live in disjoint heap regions (`scalars` / `arrays`), mirroring the static
shape specialization of the source: a scalar allocation is only ever
`delete`d through the scalar path and an array one through `delete[]`.
`scalarFrees` / `arrayFrees` tally successful deallocations;
`doubleFrees` tallies a `delete` of a non-null address that is not (or no
longer) a live allocation of that region. -/

structure BoxHeap where
  scalars : Addr → Option Nat
  arrays : Addr → Option (List Nat)
  next : Addr
  scalarFrees : Nat
  arrayFrees : Nat
  doubleFrees : Nat

/-- `delete obj` for the scalar shape (drop, box.hpp:64-70, else branch):
`delete nullptr` is a no-op; deleting a live allocation removes it;
deleting a dangling non-null pointer is a double free. -/
def deleteScalar (h : BoxHeap) (p : Ptr) : BoxHeap :=
  match p with
  | none => h
  | some a =>
      match h.scalars a with
      | some _ =>
          { h with scalars := setAt h.scalars a none
                   scalarFrees := h.scalarFrees + 1 }
      | none => { h with doubleFrees := h.doubleFrees + 1 }

/-- `delete[] obj` for the array shape (drop, box.hpp:64-70, array branch). -/
def deleteArray (h : BoxHeap) (p : Ptr) : BoxHeap :=
  match p with
  | none => h
  | some a =>
      match h.arrays a with
      | some _ =>
          { h with arrays := setAt h.arrays a none
                   arrayFrees := h.arrayFrees + 1 }
      | none => { h with doubleFrees := h.doubleFrees + 1 }

/-- The single field of the scalar `Box<T>`: `MutPtr obj` (the `size` field
is the zero-sized `unit` for this shape). -/
structure Box where
  obj : Ptr
deriving DecidableEq, Repr

/-- `drop()` for the scalar shape: `delete obj`. -/
def Box.drop (h : BoxHeap) (b : Box) : BoxHeap := deleteScalar h b.obj

/-- The `debug_assert` of `raw_ptr()` (box.hpp:207-219), guarding every
dereference / member access / view conversion: `obj != nullptr`. -/
def Box.derefAssert (b : Box) : Bool := b.obj.isSome

/-- `operator*` / `operator->` (box.hpp:176-182): read the payload through
`obj`. -/
def Box.deref (h : BoxHeap) (b : Box) : Option Nat := b.obj.bind h.scalars

/-- `static Box wrap_unchecked(MutPtr ref)` (box.hpp:80-82): wrap the raw
pointer, no checks, no heap activity. -/
def Box.wrapUnchecked (p : Ptr) : Box := ⟨p⟩

/-- `explicit Box(T val)` / `crab::make_box` (box.hpp:131-137, 228-230):
allocate and construct the payload on the heap, wrap the fresh address. -/
def Box.fromValue (h : BoxHeap) (v : Nat) : BoxHeap × Box :=
  let a := h.next
  ({ h with scalars := setAt h.scalars a (some v), next := h.next + 1 },
   ⟨some a⟩)

/-- Move constructor `Box(Box &&from)` (box.hpp:120-122):
`obj(std::exchange(from.obj, nullptr))`.  Returns
`(new instance, moved-from source)`; no heap activity. -/
def Box.moveCtor (b : Box) : Box × Box := (⟨b.obj⟩, ⟨none⟩)

/-- `static MutPtr unwrap(Box box)` for the scalar shape (box.hpp:99-103),
also `crab::release` (box.hpp:268-271): take the raw pointer out and null
the consumed box.  `unwrap` reads the pointer through `raw_ptr()`, whose
`debug_assert` is `Box.derefAssert`. -/
def Box.unwrap (b : Box) : Ptr × Box := (b.obj, ⟨none⟩)

/-- Move assignment `operator=(Box &&rhs)` for the scalar shape
(box.hpp:159-162) when destination and source are DISTINCT objects:
`drop()` the destination's payload, then `obj = std::exchange(rhs.obj,
nullptr)`.  Returns `(heap, new destination, moved-from source)`. -/
def Box.moveAssign (h : BoxHeap) (dst src : Box) : BoxHeap × Box × Box :=
  (Box.drop h dst, ⟨src.obj⟩, ⟨none⟩)

/-- Move assignment `operator=(Box &&rhs)` (box.hpp:159-162) when `rhs` is
the SAME object (`b = std::move(b)`).  The code runs `drop()` — deleting
`obj` — and then `obj = std::exchange(rhs.obj, nullptr)`: with `rhs`
aliasing `*this`, `std::exchange` reads the (unchanged, now dangling)
pointer, stores `nullptr`, and the assignment writes the old pointer back.
Net effect: the payload is deleted and `obj` still holds its address. -/
def Box.selfMoveAssign (h : BoxHeap) (b : Box) : BoxHeap × Box :=
  (Box.drop h b, ⟨b.obj⟩)

/-- Destructor `~Box()` (box.hpp:139): `drop()`. -/
def Box.dtor (h : BoxHeap) (b : Box) : BoxHeap := Box.drop h b

/-- `__release_for_derived()` (box.hpp:204): `std::exchange(obj, nullptr)`.
Returns `(raw pointer, emptied source)`. -/
def Box.releaseForDerived (b : Box) : Ptr × Box := (b.obj, ⟨none⟩)

/-- Upcast move constructor `Box(Box<Derived> &&from)` (box.hpp:125-129):
delegates `from.__release_for_derived()` to the private pointer
constructor.  The address is reused unchanged (a derived-to-base pointer
conversion does not change which allocation is referenced in this model),
and there is no heap activity — no allocation, no deallocation.  Returns
`(new base-typed instance, moved-from derived source)`. -/
def Box.upcastMoveCtor (src : Box) : Box × Box :=
  let (p, src2) := Box.releaseForDerived src
  (⟨p⟩, src2)

/-- The `debug_assert` at the end of the upcast move constructor
(box.hpp:128): the transferred pointer must be non-null (`"Invalid Box,
moved from invalid box."`). -/
def Box.upcastAssert (b : Box) : Bool := b.obj.isSome

/-- The two fields of the array shape `Box<T[]>`: `MutPtr obj` and
`usize size` (DEFAULT_SIZE = 0). -/
structure BoxArr where
  obj : Ptr
  size : Nat
deriving DecidableEq, Repr

/-- `static Box wrap_unchecked(MutPtr ref, SizeType length)`
(box.hpp:91-93). -/
def BoxArr.wrapUnchecked (p : Ptr) (len : Nat) : BoxArr := ⟨p, len⟩

/-- `crab::make_boxxed_array(count)` (box.hpp:246-249): allocate
`new T[count]()` — `count` value-initialized elements — and wrap it. -/
def makeBoxxedArray (h : BoxHeap) (count : Nat) : BoxHeap × BoxArr :=
  let a := h.next
  ({ h with arrays := setAt h.arrays a (some (List.replicate count 0))
            next := h.next + 1 },
   ⟨some a, count⟩)

/-- The `debug_assert(index < size, "Index out of Bounds")` of
`operator[]` (box.hpp:188-196). -/
def BoxArr.indexAssert (b : BoxArr) (i : Nat) : Bool := i < b.size

/-- `operator[]` (box.hpp:188-196): `as_ptr()[index]` — read element `i`
of the array allocation. -/
def BoxArr.index (h : BoxHeap) (b : BoxArr) (i : Nat) : Option Nat :=
  b.obj.bind fun a => (h.arrays a).bind fun l => l[i]?

/-- `drop()` / `~Box()` for the array shape: `delete[] obj`. -/
def BoxArr.dtor (h : BoxHeap) (b : BoxArr) : BoxHeap := deleteArray h b.obj

/-! ## Concrete scenario states -/

/-- An `Rc` heap with nothing allocated. -/
def emptyRcHeap : RcHeap := ⟨fun _ => none, fun _ => none, 0, 0⟩

/-- A `Box` heap with nothing allocated. -/
def emptyBoxHeap : BoxHeap := ⟨fun _ => none, fun _ => none, 0, 0, 0, 0⟩

/-- Scenario for the `Rc` move-construction claim: `Rc<int> a{7}` —
payload at address 0, counter at address 1 holding 1. -/
def rcMoveScn1 : RcHeap × Rc := Rc.fromValue emptyRcHeap 7

/-- …then `Rc<int> b{std::move(a)}`. -/
def rcMoveScn2 : RcHeap × Rc × Rc := Rc.moveCtor rcMoveScn1.1 rcMoveScn1.2

/-- Scenario for the `Rc` copy-assignment claim: `Rc<int> a{7}` (payload
0 / counter 1), then `Rc<int> b{9}` (payload 2 / counter 3). -/
def rcCopyScn1 : RcHeap × Rc := Rc.fromValue emptyRcHeap 7

/-- second construction of the copy-assignment scenario. -/
def rcCopyScn2 : RcHeap × Rc := Rc.fromValue rcCopyScn1.1 9

/-- …then `b = a`. -/
def rcCopyScn3 : RcHeap × Rc := Rc.copyAssign rcCopyScn2.1 rcCopyScn2.2 rcCopyScn1.2

/-- Scenario for the `Box` self-move-assignment claim: `auto b =
crab::make_box<int>(5)` — payload at address 0. -/
def boxSelfScn1 : BoxHeap × Box := Box.fromValue emptyBoxHeap 5

/-- …then `b = std::move(b)`. -/
def boxSelfScn2 : BoxHeap × Box := Box.selfMoveAssign boxSelfScn1.1 boxSelfScn1.2

/-! ## Claim theorems -/

/-- C1 (counterexample evaluation): move-construction of an `Rc` does NOT
leave the shared counter unchanged.  `Rc<int> a{7}` leaves the counter (at
address 1) holding 1; move-constructing `b` from `a` delegates the taken
pair to the private `Rc(T*, usize*)` constructor, whose `*ref_count += 1`
raises the counter to 2.  The transfer of the pair and the clearing of the
source do happen as claimed — only the "without incrementing" part fails.
Consequence: the count can never return to zero, so the payload of a
moved-from `Rc` is never deallocated (a leak). -/
theorem rc_moveCtor_increments_counter :
    rcMoveScn1.1.counters 1 = some 1
    ∧ rcMoveScn2.2.1 = ⟨some 0, some 1⟩
    ∧ rcMoveScn2.2.2 = ⟨none, none⟩
    ∧ rcMoveScn2.1.counters 1 = some 2
    ∧ ¬ rcMoveScn2.1.counters 1 = some 1 := by decide

/-- C2 (counterexample evaluation): copy-assignment of an `Rc` does NOT
increment the source's shared counter.  With `a` holding payload 0 /
counter 1 (value 1) and `b` holding payload 2 / counter 3 (value 1),
`b = a` releases `b`'s prior reference (payload 2 and counter 3 are
deallocated, as claimed) and makes `b` alias `a`'s pair — but
`operator=(const Rc&)` copies the two pointers without any
`*ref_count += 1`, so `a`'s counter still holds 1, not 2.  Consequence:
destroying `a` then drops the count to 0 and deallocates while `b` still
aliases the payload (use-after-free / double free). -/
theorem rc_copyAssign_no_increment :
    rcCopyScn2.1.counters 1 = some 1
    ∧ rcCopyScn3.2 = ⟨some 0, some 1⟩
    ∧ rcCopyScn3.1.payloads 2 = none
    ∧ rcCopyScn3.1.counters 3 = none
    ∧ rcCopyScn3.1.counters 1 = some 1
    ∧ ¬ rcCopyScn3.1.counters 1 = some 2 := by decide

/-- C3 (counterexample evaluation): self-move-assignment of a scalar `Box`
DOES deallocate the payload and DOES cause a double free.
`operator=(Box&&)` first runs `drop()` — deleting the payload at address
0 — and then `obj = std::exchange(rhs.obj, nullptr)` with `rhs` aliasing
`*this`, which writes the old (now dangling) address back into `obj`.
The box is left non-empty but its payload is gone (`deref` finds nothing),
and the destructor then deletes the same address a second time. -/
theorem box_selfMoveAssign_double_free :
    boxSelfScn2.2 = ⟨some 0⟩
    ∧ Box.deref boxSelfScn2.1 boxSelfScn2.2 = none
    ∧ boxSelfScn2.1.scalarFrees = 1
    ∧ (Box.dtor boxSelfScn2.1 boxSelfScn2.2).doubleFrees = 1 := by decide

/-- C4: move-constructing `b` from a non-empty `Box` `a` leaves the source
empty — so dereferencing the source fails `raw_ptr()`'s debug assertion
(a precondition violation) — and dereferencing `b` yields the value `a`
held before the move (the move exchanges the pointer only; the heap is
untouched). -/
theorem box_moveCtor_source_empty (h : BoxHeap) (a : Box) (v : Nat)
    (hv : Box.deref h a = some v) :
    (Box.moveCtor a).2.derefAssert = false
    ∧ Box.deref h (Box.moveCtor a).1 = some v := by
  exact ⟨rfl, hv⟩

/-- Witness for `box_moveCtor_source_empty`: `auto b =
crab::make_box<int>(5)`, then move-construct from it. -/
theorem box_moveCtor_source_empty_witness :
    Box.deref (Box.fromValue emptyBoxHeap 5).1 (Box.fromValue emptyBoxHeap 5).2 = some 5
    ∧ ((Box.moveCtor (Box.fromValue emptyBoxHeap 5).2).2.derefAssert = false
       ∧ Box.deref (Box.fromValue emptyBoxHeap 5).1
           (Box.moveCtor (Box.fromValue emptyBoxHeap 5).2).1 = some 5) :=
  ⟨by decide,
   box_moveCtor_source_empty (Box.fromValue emptyBoxHeap 5).1
     (Box.fromValue emptyBoxHeap 5).2 5 (by decide)⟩

/-- C6: for an array-shaped `Box<T[]>` whose allocation holds exactly
`size` elements (as every allocation produced by `make_boxxed_array`
does), `operator[]` at any `i < size` passes the bounds assertion and
returns element `i` of the array, while `operator[]` at any `j ≥ size`
(in particular at `j = size`) fails the `debug_assert(index < size)` — a
precondition violation. -/
theorem boxArr_index_bounds (h : BoxHeap) (b : BoxArr) (a : Addr)
    (l : List Nat) (i j : Nat)
    (hobj : b.obj = some a) (hl : h.arrays a = some l)
    (hlen : l.length = b.size) (hi : i < b.size) (hj : b.size ≤ j) :
    b.indexAssert i = true
    ∧ BoxArr.index h b i = l[i]?
    ∧ (BoxArr.index h b i).isSome = true
    ∧ b.indexAssert j = false := by
  have hidx : BoxArr.index h b i = l[i]? := by
    simp [BoxArr.index, hobj, hl]
  refine ⟨by simpa [BoxArr.indexAssert] using hi, hidx, ?_, ?_⟩
  · rw [hidx]
    have : i < l.length := by omega
    simp [List.getElem?_eq_getElem this]
  · simp only [BoxArr.indexAssert, decide_eq_false_iff_not]
    omega

/-- Witness for `boxArr_index_bounds`: `crab::make_boxxed_array<int>(3)`,
indexing at `element_count - 1 = 2` (succeeds) and `element_count = 3`
(assertion failure). -/
theorem boxArr_index_bounds_witness :
    ((makeBoxxedArray emptyBoxHeap 3).2.obj = some 0
     ∧ (makeBoxxedArray emptyBoxHeap 3).1.arrays 0 = some (List.replicate 3 0)
     ∧ (List.replicate 3 0).length = (makeBoxxedArray emptyBoxHeap 3).2.size
     ∧ 2 < (makeBoxxedArray emptyBoxHeap 3).2.size
     ∧ (makeBoxxedArray emptyBoxHeap 3).2.size ≤ 3)
    ∧ ((makeBoxxedArray emptyBoxHeap 3).2.indexAssert 2 = true
       ∧ BoxArr.index (makeBoxxedArray emptyBoxHeap 3).1
           (makeBoxxedArray emptyBoxHeap 3).2 2 = (List.replicate 3 0)[2]?
       ∧ (BoxArr.index (makeBoxxedArray emptyBoxHeap 3).1
           (makeBoxxedArray emptyBoxHeap 3).2 2).isSome = true
       ∧ (makeBoxxedArray emptyBoxHeap 3).2.indexAssert 3 = false) :=
  ⟨by decide,
   boxArr_index_bounds (makeBoxxedArray emptyBoxHeap 3).1
     (makeBoxxedArray emptyBoxHeap 3).2 0 (List.replicate 3 0) 2 3
     (by decide) (by decide) (by decide) (by decide) (by decide)⟩

/-- C7: round trip of `Box::unwrap` (= `crab::release`, which forwards to
it) followed by `Box::wrap_unchecked`.  For a non-empty scalar `Box`,
`unwrap`'s internal `raw_ptr()` assertion passes, and re-wrapping the
returned raw pointer yields an owner equal to the original — hence with
the same dereferenced value and the same deallocation behavior on
destruction. -/
theorem box_unwrap_wrap_roundtrip (h : BoxHeap) (b : Box) (v : Nat)
    (hv : Box.deref h b = some v) :
    b.derefAssert = true
    ∧ Box.wrapUnchecked (Box.unwrap b).1 = b
    ∧ Box.deref h (Box.wrapUnchecked (Box.unwrap b).1) = some v
    ∧ Box.dtor h (Box.wrapUnchecked (Box.unwrap b).1) = Box.dtor h b := by
  refine ⟨?_, rfl, hv, rfl⟩
  rcases b with ⟨o⟩
  cases o with
  | none => simp [Box.deref] at hv
  | some a => rfl

/-- Witness for `box_unwrap_wrap_roundtrip`: `auto b =
crab::make_box<int>(5)`, released and re-wrapped. -/
theorem box_unwrap_wrap_roundtrip_witness :
    Box.deref (Box.fromValue emptyBoxHeap 5).1 (Box.fromValue emptyBoxHeap 5).2 = some 5
    ∧ ((Box.fromValue emptyBoxHeap 5).2.derefAssert = true
       ∧ Box.wrapUnchecked (Box.unwrap (Box.fromValue emptyBoxHeap 5).2).1
           = (Box.fromValue emptyBoxHeap 5).2
       ∧ Box.deref (Box.fromValue emptyBoxHeap 5).1
           (Box.wrapUnchecked (Box.unwrap (Box.fromValue emptyBoxHeap 5).2).1) = some 5
       ∧ Box.dtor (Box.fromValue emptyBoxHeap 5).1
           (Box.wrapUnchecked (Box.unwrap (Box.fromValue emptyBoxHeap 5).2).1)
           = Box.dtor (Box.fromValue emptyBoxHeap 5).1 (Box.fromValue emptyBoxHeap 5).2) :=
  ⟨by decide,
   box_unwrap_wrap_roundtrip (Box.fromValue emptyBoxHeap 5).1
     (Box.fromValue emptyBoxHeap 5).2 5 (by decide)⟩

/-- C8: upcast-move-construction (`Box<Base>` from `Box<Derived>&&`) is a
release-then-rewrap: the new owner holds exactly the source's allocation
address (so the held object — and with it its dynamic / virtual-dispatch
behavior — is preserved: dereferencing through the same heap finds the
same payload), the derived source is left empty, and the `debug_assert`
at the end of the constructor passes for a non-empty source.  The
constructor only exchanges pointers: its embedding takes no heap and the
dereference against the unchanged heap still yields `v`, i.e. no
allocation or deallocation occurs.  Last conjunct: when the source was
already empty, the transferred pointer is null and that assertion fails
(a fatal debug assertion). -/
theorem box_upcast_transfer (h : BoxHeap) (src : Box) (v : Nat)
    (hv : Box.deref h src = some v) :
    (Box.upcastMoveCtor src).1.obj = src.obj
    ∧ (Box.upcastMoveCtor src).2 = ⟨none⟩
    ∧ Box.deref h (Box.upcastMoveCtor src).1 = some v
    ∧ Box.upcastAssert (Box.upcastMoveCtor src).1 = true
    ∧ Box.upcastAssert (Box.upcastMoveCtor ⟨none⟩).1 = false := by
  refine ⟨rfl, rfl, hv, ?_, rfl⟩
  rcases src with ⟨o⟩
  cases o with
  | none => simp [Box.deref] at hv
  | some a => rfl

/-- Witness for `box_upcast_transfer`: upcasting a `Box` made from the
value 5. -/
theorem box_upcast_transfer_witness :
    Box.deref (Box.fromValue emptyBoxHeap 5).1 (Box.fromValue emptyBoxHeap 5).2 = some 5
    ∧ ((Box.upcastMoveCtor (Box.fromValue emptyBoxHeap 5).2).1.obj
         = (Box.fromValue emptyBoxHeap 5).2.obj
       ∧ (Box.upcastMoveCtor (Box.fromValue emptyBoxHeap 5).2).2 = ⟨none⟩
       ∧ Box.deref (Box.fromValue emptyBoxHeap 5).1
           (Box.upcastMoveCtor (Box.fromValue emptyBoxHeap 5).2).1 = some 5
       ∧ Box.upcastAssert (Box.upcastMoveCtor (Box.fromValue emptyBoxHeap 5).2).1 = true
       ∧ Box.upcastAssert (Box.upcastMoveCtor ⟨none⟩).1 = false) :=
  ⟨by decide,
   box_upcast_transfer (Box.fromValue emptyBoxHeap 5).1
     (Box.fromValue emptyBoxHeap 5).2 5 (by decide)⟩

/-- C10: destroying an empty (moved-from or released) scalar `Box`
deallocates nothing: `drop()` runs `delete obj` with `obj == nullptr`,
which is a no-op, so the heap — including its free and double-free
tallies — is unchanged.  In particular, for any `Box` `a`, destroying the
source left behind by move-construction is a no-op, so move-out followed
by destruction of the source never frees the payload a second time. -/
theorem box_empty_dtor_noop (h : BoxHeap) (a b : Box) (hb : b.obj = none) :
    Box.dtor h b = h
    ∧ Box.dtor h (Box.moveCtor a).2 = h := by
  constructor
  · rcases b with ⟨o⟩
    cases hb
    rfl
  · rfl

/-- Witness for `box_empty_dtor_noop`: destroying the moved-from box of
the `make_box<int>(5)` scenario. -/
theorem box_empty_dtor_noop_witness :
    (Box.moveCtor (Box.fromValue emptyBoxHeap 5).2).2.obj = none
    ∧ (Box.dtor (Box.fromValue emptyBoxHeap 5).1
         (Box.moveCtor (Box.fromValue emptyBoxHeap 5).2).2 = (Box.fromValue emptyBoxHeap 5).1
       ∧ Box.dtor (Box.fromValue emptyBoxHeap 5).1
           (Box.moveCtor (Box.fromValue emptyBoxHeap 5).2).2 = (Box.fromValue emptyBoxHeap 5).1) :=
  ⟨by decide,
   box_empty_dtor_noop (Box.fromValue emptyBoxHeap 5).1
     (Box.fromValue emptyBoxHeap 5).2
     (Box.moveCtor (Box.fromValue emptyBoxHeap 5).2).2 (by decide)⟩

/-- C9: the paired-validity invariant of `Rc` — `data` and `ref_count`
both valid or both cleared — is preserved by every operation.  Starting
from paired handles `r` (a destination) and `s` (a source), and a
non-null raw pointer `b` (as `from_owned_unchecked`'s constructor
assertion requires): construction from a value, unchecked wrapping, copy-
and move-construction, and copy- and move-assignment each produce only
paired handles (for the moves, both the new handle and the cleared
source).  `release` / the destructor and `raw_ptr` (dereference) do not
modify the handle's fields, so they cannot break pairing. -/
theorem rc_paired_invariant (h : RcHeap) (r s : Rc) (v : Nat) (b : Ptr)
    (_hr : r.paired = true) (hs : s.paired = true) (hb : b.isSome = true) :
    (Rc.fromValue h v).2.paired = true
    ∧ (Rc.fromOwnedUnchecked h b).2.paired = true
    ∧ (Rc.copyCtor h s).2.paired = true
    ∧ (Rc.moveCtor h s).2.1.paired = true
    ∧ (Rc.moveCtor h s).2.2.paired = true
    ∧ (Rc.copyAssign h r s).2.paired = true
    ∧ (Rc.moveAssign h r s).2.1.paired = true
    ∧ (Rc.moveAssign h r s).2.2.paired = true := by
  rcases s with ⟨sd, sc⟩
  refine ⟨rfl, ?_, ?_, ?_, ?_, ?_, ?_, ?_⟩
  · simp [Rc.fromOwnedUnchecked, rcCtor, Rc.paired, hb]
  · cases sc <;> simpa [Rc.copyCtor, rcCtor, Rc.paired] using hs
  · cases sc <;> simpa [Rc.moveCtor, rcCtor, Rc.paired] using hs
  · cases sc <;> rfl
  · simpa [Rc.copyAssign, Rc.paired] using hs
  · simpa [Rc.moveAssign, Rc.paired] using hs
  · rfl

/-- Witness for `rc_paired_invariant`: two distinct paired handles over
the four-cell heap left by the copy-assignment scenario setup, and the
raw pointer address 4. -/
theorem rc_paired_invariant_witness :
    (Rc.paired ⟨some 0, some 1⟩ = true ∧ Rc.paired ⟨some 2, some 3⟩ = true
     ∧ (some 4 : Ptr).isSome = true)
    ∧ ((Rc.fromValue rcCopyScn2.1 7).2.paired = true
       ∧ (Rc.fromOwnedUnchecked rcCopyScn2.1 (some 4)).2.paired = true
       ∧ (Rc.copyCtor rcCopyScn2.1 ⟨some 2, some 3⟩).2.paired = true
       ∧ (Rc.moveCtor rcCopyScn2.1 ⟨some 2, some 3⟩).2.1.paired = true
       ∧ (Rc.moveCtor rcCopyScn2.1 ⟨some 2, some 3⟩).2.2.paired = true
       ∧ (Rc.copyAssign rcCopyScn2.1 ⟨some 0, some 1⟩ ⟨some 2, some 3⟩).2.paired = true
       ∧ (Rc.moveAssign rcCopyScn2.1 ⟨some 0, some 1⟩ ⟨some 2, some 3⟩).2.1.paired = true
       ∧ (Rc.moveAssign rcCopyScn2.1 ⟨some 0, some 1⟩ ⟨some 2, some 3⟩).2.2.paired = true) :=
  ⟨by decide,
   rc_paired_invariant rcCopyScn2.1 ⟨some 0, some 1⟩ ⟨some 2, some 3⟩ 7 (some 4)
     (by decide) (by decide) (by decide)⟩

/-! ## Fan-out / drop-all for the shared owner (C5)

`N` copies of one `Rc` are all equal as values — each holds the same
`(payload, counter)` pair — so destroying them "in any order" is
destroying the same handle value `N` times; the model uses
`List.replicate`. -/

/-- Heap of the fan-out scenario: payload 7 at address 0, counter at
address 1 holding 3 — the state after one from-value construction and two
copy-constructions (three live owners). -/
def rcFanHeap : RcHeap :=
  ⟨setAt (fun _ => none) 0 (some 7), setAt (fun _ => none) 1 (some 3), 2, 0⟩

theorem usizeSub1_eq_sub (m : Nat) (h1 : 1 ≤ m) (h2 : m < USIZE) :
    usizeSub1 m = m - 1 := by
  have hm : m + (USIZE - 1) = (m - 1) + USIZE := by
    have : 1 ≤ USIZE := Nat.one_le_two_pow
    omega
  rw [usizeSub1, hm, Nat.add_mod_right]
  exact Nat.mod_eq_of_lt (by omega)

/-- One `~Rc()` on a handle whose shared counter holds `m ≥ 2`: the
counter drops to `m - 1`, nothing is deallocated. -/
theorem rc_dtor_decrement (h : RcHeap) (d c m : Nat)
    (hc : h.counters c = some m) (h2 : 2 ≤ m) (hm : m < USIZE) :
    (Rc.dtor h ⟨some d, some c⟩).counters c = some (m - 1)
    ∧ (∀ x, (Rc.dtor h ⟨some d, some c⟩).payloads x = h.payloads x)
    ∧ (Rc.dtor h ⟨some d, some c⟩).payloadFrees = h.payloadFrees := by
  have hs : usizeSub1 m = m - 1 := usizeSub1_eq_sub m (by omega) hm
  have hne : ¬ usizeSub1 m = 0 := by omega
  simp only [Rc.dtor, Rc.release, hc, hne, if_neg hne]
  exact ⟨by simp [setAt, hs], fun x => rfl, rfl⟩

/-- One `~Rc()` on a handle whose shared counter holds exactly 1 (the
last owner): payload and counter are both deallocated and the payload
free tally rises by one. -/
theorem rc_dtor_last (h : RcHeap) (d c : Nat) (hc : h.counters c = some 1) :
    (Rc.dtor h ⟨some d, some c⟩).payloads d = none
    ∧ (Rc.dtor h ⟨some d, some c⟩).counters c = none
    ∧ (Rc.dtor h ⟨some d, some c⟩).payloadFrees = h.payloadFrees + 1 := by
  have hs : usizeSub1 1 = 0 := by
    have h1 : 1 < USIZE := by
      have h2 : (1:Nat) < 2 ^ 64 := by norm_num
      rw [USIZE]; exact h2
    have := usizeSub1_eq_sub 1 (by omega) h1
    omega
  simp only [Rc.dtor, Rc.release, hc, hs, if_pos rfl]
  exact ⟨by simp [setAt], by simp [setAt], rfl⟩

/-- After `k` of the destructions, while `k` is still below the count
`m`: counter `m - k`, all payloads untouched, no payload freed. -/
theorem destroyAll_replicate_lt (d c : Nat) :
    ∀ (k : Nat) (h : RcHeap) (m : Nat), h.counters c = some m →
      k < m → m < USIZE →
      (destroyAll h (List.replicate k ⟨some d, some c⟩)).counters c = some (m - k)
      ∧ (∀ x, (destroyAll h (List.replicate k ⟨some d, some c⟩)).payloads x
              = h.payloads x)
      ∧ (destroyAll h (List.replicate k ⟨some d, some c⟩)).payloadFrees
          = h.payloadFrees := by
  intro k
  induction k with
  | zero => intro h m hc _ _; exact ⟨hc, fun x => rfl, rfl⟩
  | succ n ih =>
      intro h m hc hk hm
      have h2 : 2 ≤ m := by omega
      obtain ⟨hc', hp', hf'⟩ := rc_dtor_decrement h d c m hc h2 hm
      have hstep : destroyAll h (List.replicate (n + 1) ⟨some d, some c⟩)
          = destroyAll (Rc.dtor h ⟨some d, some c⟩)
              (List.replicate n ⟨some d, some c⟩) := by
        simp [destroyAll, List.replicate_succ]
      obtain ⟨ih1, ih2, ih3⟩ :=
        ih (Rc.dtor h ⟨some d, some c⟩) (m - 1) hc' (by omega)
          (by omega)
      rw [hstep]
      refine ⟨?_, ?_, ?_⟩
      · rw [ih1]; congr 1; omega
      · intro x; rw [ih2 x, hp' x]
      · rw [ih3, hf']

/-- C5: `N` owners of one payload (counter value `N`, as produced by one
from-value construction fanned out through `N - 1` copy-constructions),
all destroyed.  For every `k < N`, after `k` destructions the payload is
still allocated with its value, the counter reads `N - k`, and no payload
has been freed; after the `N`-th destruction the payload and the counter
are deallocated and the payload free tally has risen by exactly one.
So each destruction decrements, and deallocation happens together for
payload and counter, exactly once, at the `N`-th drop. -/
theorem rc_fanout_dealloc (h : RcHeap) (d c v N k : Nat)
    (hd : h.payloads d = some v) (hc : h.counters c = some N)
    (hN1 : 1 ≤ N) (hN2 : N < USIZE) (hk : k < N) :
    (destroyAll h (List.replicate k ⟨some d, some c⟩)).payloads d = some v
    ∧ (destroyAll h (List.replicate k ⟨some d, some c⟩)).counters c = some (N - k)
    ∧ (destroyAll h (List.replicate k ⟨some d, some c⟩)).payloadFrees
        = h.payloadFrees
    ∧ (destroyAll h (List.replicate N ⟨some d, some c⟩)).payloads d = none
    ∧ (destroyAll h (List.replicate N ⟨some d, some c⟩)).counters c = none
    ∧ (destroyAll h (List.replicate N ⟨some d, some c⟩)).payloadFrees
        = h.payloadFrees + 1 := by
  obtain ⟨l1, l2, l3⟩ := destroyAll_replicate_lt d c k h N hc hk hN2
  refine ⟨by rw [l2 d]; exact hd, l1, l3, ?_⟩
  obtain ⟨m1, m2, m3⟩ :=
    destroyAll_replicate_lt d c (N - 1) h N hc (by omega) hN2
  have hsplit : destroyAll h (List.replicate N ⟨some d, some c⟩)
      = Rc.dtor (destroyAll h (List.replicate (N - 1) ⟨some d, some c⟩))
          ⟨some d, some c⟩ := by
    have hN : N = (N - 1) + 1 := by omega
    rw [hN, List.replicate_succ', destroyAll, List.foldl_append]
    rfl
  have hone : (destroyAll h (List.replicate (N - 1) ⟨some d, some c⟩)).counters c
      = some 1 := by
    rw [m1]; congr 1; omega
  obtain ⟨f1, f2, f3⟩ :=
    rc_dtor_last (destroyAll h (List.replicate (N - 1) ⟨some d, some c⟩)) d c hone
  rw [hsplit]
  exact ⟨f1, f2, by rw [f3, m3]⟩

/-- Witness for `rc_fanout_dealloc`: payload 7 at address 0, counter 3 at
address 1 (three live owners, as after one construction and two copies),
observed after 2 and after all 3 destructions. -/
theorem rc_fanout_dealloc_witness :
    (rcFanHeap.payloads 0 = some 7 ∧ rcFanHeap.counters 1 = some 3
     ∧ 1 ≤ 3 ∧ 3 < USIZE ∧ 2 < 3)
    ∧ ((destroyAll rcFanHeap (List.replicate 2 ⟨some 0, some 1⟩)).payloads 0 = some 7
       ∧ (destroyAll rcFanHeap (List.replicate 2 ⟨some 0, some 1⟩)).counters 1 = some (3 - 2)
       ∧ (destroyAll rcFanHeap (List.replicate 2 ⟨some 0, some 1⟩)).payloadFrees
           = rcFanHeap.payloadFrees
       ∧ (destroyAll rcFanHeap (List.replicate 3 ⟨some 0, some 1⟩)).payloads 0 = none
       ∧ (destroyAll rcFanHeap (List.replicate 3 ⟨some 0, some 1⟩)).counters 1 = none
       ∧ (destroyAll rcFanHeap (List.replicate 3 ⟨some 0, some 1⟩)).payloadFrees
           = rcFanHeap.payloadFrees + 1) :=
  ⟨by decide,
   rc_fanout_dealloc rcFanHeap 0 1 7 3 2 (by decide) (by decide) (by decide)
     (by decide) (by decide)⟩

end Crabpp
